import Mathlib

/-!
Verification development for the TrustVoice Analytics RAG pipeline
(`src/rag_pipeline.py`, `src/app.py`, `config.py`).

The Python code is shallowly embedded: pandas DataFrames become lists of
rows of `Cell` values tagged with per-column dtypes, the ChromaDB client
becomes an explicit association store, the sentence-transformer model and
the ChromaDB query endpoint become abstract function-valued fields, and
floating-point distances become rationals.  Each definition follows the
corresponding source function; theorems state the specification claims.
-/

namespace TrustVoice

/-- A single pandas cell: missing (`NaN`), a string value, or a numeric
value.  Strings cover the object-dtype payloads of the complaint data;
numbers cover the numeric columns a CSV load produces. -/
inductive Cell where
  | na : Cell
  | str : String → Cell
  | num : Int → Cell
deriving DecidableEq

/-- Whether the cell is a string value. -/
def Cell.isStr : Cell → Bool
  | Cell.str _ => true
  | _ => false

/-- Python `str(...)` on a cell value, as used by `astype(str)` and the
`' '.join(x.astype(str))` row combination. -/
def cellToString : Cell → String
  | Cell.na => "nan"
  | Cell.str s => s
  | Cell.num n => toString n

/-- A pandas column dtype, reduced to the distinction the code observes:
`select_dtypes(include=["object"])` picks out object columns. -/
inductive Dtype where
  | object : Dtype
  | numeric : Dtype
deriving DecidableEq

/-- A pandas DataFrame: named columns with dtypes, and rows of cells.
Well-formed frames have `rows[i].length = cols.length = dtypes.length`. -/
structure DataFrame where
  cols : List String
  dtypes : List Dtype
  rows : List (List Cell)
deriving DecidableEq

/-- `pd.DataFrame()`, the empty frame returned on the error paths. -/
def emptyDF : DataFrame := ⟨[], [], []⟩

/-- `df.drop_duplicates()`: keep the first occurrence of each distinct
row, dropping later exact duplicates.  `seen` accumulates rows already
emitted. -/
def dedupFirst (seen : List (List Cell)) : List (List Cell) → List (List Cell)
  | [] => []
  | r :: rs => if r ∈ seen then dedupFirst seen rs else r :: dedupFirst (r :: seen) rs

/-- `df.fillna("")` on one cell: missing values become the empty string. -/
def fillCell : Cell → Cell
  | Cell.na => Cell.str ""
  | c => c

/-- Whether column `j` contains a missing value in any row. -/
def colHasNa (rows : List (List Cell)) (j : Nat) : Bool :=
  rows.any (fun r => r.getD j Cell.na == Cell.na)

/-- Dtype adjustment performed by `fillna("")`: a column that contained a
missing value receives string data and becomes object-typed; every other
column keeps its dtype.  `j` is the index of the first column of `ds`. -/
def updateDtypesFrom (rows : List (List Cell)) : Nat → List Dtype → List Dtype
  | _, [] => []
  | j, d :: ds =>
    (if colHasNa rows j then Dtype.object else d) :: updateDtypesFrom rows (j + 1) ds

/-- `df[col] = df[col].astype(str)` applied to every object-dtype column
of a row: cells of object columns are stringified, numeric columns are
left untouched (the code only iterates over
`df.select_dtypes(include=["object"]).columns`). -/
def astypeCells : List Dtype → List Cell → List Cell
  | _, [] => []
  | [], c :: cs => c :: astypeCells [] cs
  | d :: ds, c :: cs =>
    (if d = Dtype.object then Cell.str (cellToString c) else c) :: astypeCells ds cs

/-- The `text_fields = ['company', 'product', 'issue']` that are present
among the columns, in that order. -/
def availableTextFields (cols : List String) : List String :=
  (["company", "product", "issue"]).filter (fun f => cols.contains f)

/-- `' '.join(x.astype(str))` over the available text fields of a row. -/
def joinAvailable (cols : List String) (row : List Cell) : String :=
  String.intercalate " "
    ((availableTextFields cols).map
      (fun f => cellToString (row.getD (List.indexOf f cols) Cell.na)))

/-- The `combined_text` value computed for one (already cleaned) row:
the `consumer_complaint_narrative` cell if that column exists, otherwise
the space-joined available company/product/issue fields, otherwise
`df.iloc[:, 0].astype(str)` — the first column stringified. -/
def combinedTextCell (cols : List String) (row : List Cell) : Cell :=
  if cols.contains "consumer_complaint_narrative" then
    row.getD (List.indexOf "consumer_complaint_narrative" cols) Cell.na
  else if availableTextFields cols ≠ [] then
    Cell.str (joinAvailable cols row)
  else
    Cell.str (cellToString (row.getD 0 Cell.na))

/-- Dtype of the derived `combined_text` column: copying the narrative
column copies its dtype; the join and `astype(str)` branches produce
strings (object dtype). -/
def combinedDtype (cols : List String) (dts : List Dtype) : Dtype :=
  if cols.contains "consumer_complaint_narrative" then
    dts.getD (List.indexOf "consumer_complaint_narrative" cols) Dtype.object
  else Dtype.object

/-- The dtypes after `fillna("")`, for the deduplicated rows of `df`. -/
def filledDtypes (df : DataFrame) : List Dtype :=
  updateDtypesFrom (dedupFirst [] df.rows) 0 df.dtypes

/-- The rows of `df` after `drop_duplicates()`, `fillna("")` and the
object-column `astype(str)` loop, in order. -/
def normalizedRows (df : DataFrame) : List (List Cell) :=
  (dedupFirst [] df.rows).map (fun r => astypeCells (filledDtypes df) (r.map fillCell))

/-- Body of `RAGPipeline.preprocess_data` on a loaded, non-empty frame:
drop exact duplicate rows, fill missing values with `""`, stringify the
object-dtype columns, and append the derived `combined_text` column. -/
def preprocessData (df : DataFrame) : DataFrame :=
  { cols := df.cols ++ ["combined_text"]
    dtypes := filledDtypes df ++ [combinedDtype df.cols (filledDtypes df)]
    rows := (normalizedRows df).map (fun r => r ++ [combinedTextCell df.cols r]) }

/-- `DEFAULT_TOP_K` from `config.py`. -/
def DEFAULT_TOP_K : Int := 5

/-- The inner (single-query) payload of a ChromaDB
`collection.query(..., include=['metadatas', 'documents', 'distances'])`
response: parallel lists of metadata records, documents, and distances. -/
structure QueryResponse where
  metadatas : List (List (String × Cell))
  documents : List String
  distances : List ℚ

/-- One formatted entry of the `search_similar_complaints` result list:
the metadata record extended with a `similarity_score` and the matched
`document` text. -/
structure SearchResult where
  metadata : List (String × Cell)
  similarity_score : ℚ
  document : String
deriving DecidableEq

/-- A ChromaDB collection handle at query time: an abstract
nearest-neighbor endpoint mapping a query embedding and `n_results` to a
response. -/
structure Collection where
  query : List ℚ → Int → QueryResponse

/-- A loaded sentence-transformer: `encode` for a single query string and
`encodeBatch` for the bulk `encode(texts)` call over column cells. -/
structure EmbeddingModel where
  encode : String → List ℚ
  encodeBatch : List Cell → List (List ℚ)

/-- The `RAGPipeline` object state: the configuration flag and the three
nullable fields the methods test (`self.collection`,
`self.embedding_model`, `self.complaints_data`). -/
structure RAGPipeline where
  use_existing_vector_store : Bool
  collection : Option Collection
  embedding_model : Option EmbeddingModel
  complaints_data : Option DataFrame

/-- Which effectful steps a `search_similar_complaints` call performed:
whether the query embedding was computed and whether the index query was
issued. -/
structure SearchTrace where
  embedCalled : Bool
  queryCalled : Bool
deriving DecidableEq

/-- The result-formatting loop of `search_similar_complaints`: for each
returned metadata record, copy it, set `similarity_score = 1 - distance`,
and attach the parallel document (or `""` when no documents came back). -/
def formatResults (resp : QueryResponse) : List SearchResult :=
  (List.range resp.metadatas.length).map (fun i =>
    { metadata := resp.metadatas.getD i []
      similarity_score := 1 - resp.distances.getD i 0
      document := if resp.documents.isEmpty then "" else resp.documents.getD i "" })

/-- `RAGPipeline.search_similar_complaints`: return `[]` when the
collection handle is `None`; default `top_k` to `DEFAULT_TOP_K`; a `None`
embedding model makes `encode` raise, which the `except` turns into `[]`
before any work; otherwise embed the query, query the collection, and
format the response.  The trace records which steps ran. -/
def search_similar_complaints (p : RAGPipeline) (query : String) (top_k : Option Int) :
    List SearchResult × SearchTrace :=
  match p.collection with
  | none => ([], ⟨false, false⟩)
  | some coll =>
    match p.embedding_model with
    | none => ([], ⟨false, false⟩)
    | some m =>
      (formatResults (coll.query (m.encode query) (top_k.getD DEFAULT_TOP_K)), ⟨true, true⟩)

/-- `RAGPipeline.create_embeddings`: empty result when the model is not
loaded, when no data is loaded or the frame is empty, or when the text
column is missing; otherwise encode the column's cells in bulk. -/
def create_embeddings (p : RAGPipeline) (text_column : String) : List (List ℚ) :=
  match p.embedding_model with
  | none => []
  | some m =>
    match p.complaints_data with
    | none => []
    | some df =>
      if df.rows.isEmpty || df.cols.isEmpty then []
      else if !(df.cols.contains text_column) then []
      else m.encodeBatch (df.rows.map (fun r => r.getD (List.indexOf text_column df.cols) Cell.na))

/-- `RAGPipeline.preprocess_data` at the object level: with no data or an
empty frame return `pd.DataFrame()` and leave the state alone; otherwise
clean the frame, store it back into `self.complaints_data`, and return
it. -/
def preprocess_data (p : RAGPipeline) : DataFrame × RAGPipeline :=
  match p.complaints_data with
  | none => (emptyDF, p)
  | some df =>
    if df.rows.isEmpty || df.cols.isEmpty then (emptyDF, p)
    else (preprocessData df, { p with complaints_data := some (preprocessData df) })

/-- The fixed no-context fallback answer. -/
def NO_CONTEXT_FALLBACK : String := "No relevant context found to answer the question."

/-- Modelled from the spec: the grounding prompt of the Answer
Synthesizer (spec section 4.5, step 4) — a fixed persona instruction, the
instruction to admit insufficient context, the assembled context, and the
question.  The prompt-building code is not present under `src/`. -/
def buildPrompt (context question : String) : String :=
  "You are a financial complaints analyst for CrediTrust Financial. " ++
  "Answer using only the context below; if the context does not contain " ++
  "enough information, say that there is not enough information.\n" ++
  "Context:\n" ++ context ++ "\nQuestion:\n" ++ question

/-- Modelled from the spec: `RAGPipeline.generate_answer_with_llm`, which
`src/app.py` invokes but whose definition is not present under `src/`.
Spec section 4.5: retrieve, join the non-empty documents in ranked order
with a newline separator, return the fixed fallback without invoking
generation when that context is empty, otherwise invoke the generation
model on the grounding prompt, trimming its output and converting a
generation failure into an error-carrying fallback string.  `gen` is the
text-generation model; the returned flag records whether it was
invoked. -/
def generate_answer_with_llm (p : RAGPipeline) (gen : String → Except String String)
    (query : String) (top_k : Option Int) : String × Bool :=
  match ((search_similar_complaints p query top_k).1.map
      (fun r => r.document)).filter (fun d => d ≠ "") with
  | [] => (NO_CONTEXT_FALLBACK, false)
  | d :: ds =>
    match gen (buildPrompt (String.intercalate "\n" (d :: ds)) query) with
    | Except.ok t => (t.trim, true)
    | Except.error e => ("generation error: " ++ e, true)

/-- One persisted vector-index entry: id, embedding, metadata record, and
source document. -/
structure Entry where
  id : String
  embedding : List ℚ
  metadata : List (String × Cell)
  document : String
deriving DecidableEq

/-- Whether a list of ids contains a repeated id. -/
def listHasDup : List String → Bool
  | [] => false
  | x :: xs => xs.contains x || listHasDup xs

/-- `collection.add(...)` under the index contract: ids must be unique
within the collection, so an id that repeats an existing entry's id or
another id of the same batch is a `DuplicateId` contract violation and
nothing is appended; otherwise the entries are appended in order. -/
def collectionAdd (c : List Entry) (news : List Entry) : Except String (List Entry) :=
  if (news.map (fun e => e.id)).any (fun i => (c.map (fun e => e.id)).contains i)
      || listHasDup (news.map (fun e => e.id)) then
    Except.error "DuplicateId"
  else
    Except.ok (c ++ news)

/-- Zip ids, embeddings, documents and metadata records into entries, as
`collection.add(embeddings=..., documents=..., metadatas=..., ids=...)`
consumes its parallel lists. -/
def buildEntries : List String → List (List ℚ) → List String →
    List (List (String × Cell)) → List Entry
  | i :: is, e :: es, t :: ts, m :: ms => ⟨i, e, m, t⟩ :: buildEntries is es ts ms
  | _, _, _, _ => []

/-- The ids generated by `build_vector_store`:
`[f"complaint_{i}" for i in range(len(texts))]`. -/
def complaintIds (n : Nat) : List String :=
  (List.range n).map (fun i => "complaint_" ++ toString i)

/-- `RAGPipeline.build_vector_store`: fail (returning `False`) when the
collection handle is `None` or no embeddings were provided; the
`combined_text` column lookup raising (no data / missing column) is
caught by the `except` and also yields `False`; otherwise add the entries
with freshly generated `complaint_<i>` ids, converting an add failure
into `False` with the collection unchanged. -/
def build_vector_store (data : Option DataFrame) (coll : Option (List Entry))
    (embeddings : List (List ℚ)) : Bool × Option (List Entry) :=
  match coll with
  | none => (false, none)
  | some c =>
    if embeddings.isEmpty then (false, some c)
    else
      match data with
      | none => (false, some c)
      | some df =>
        if !(df.cols.contains "combined_text") then (false, some c)
        else
          match collectionAdd c
              (buildEntries (complaintIds df.rows.length) embeddings
                (df.rows.map (fun r =>
                  cellToString (r.getD (List.indexOf "combined_text" df.cols) Cell.na)))
                (df.rows.map (fun r => df.cols.zip r))) with
          | Except.ok c2 => (true, some c2)
          | Except.error _ => (false, some c)

/-- A ChromaDB persistent store at one path: collections by name. -/
abbrev ChromaStore := List (String × List Entry)

/-- The get-or-create logic of `RAGPipeline._initialize_chroma_client`
for a successfully opened client: `get_collection` returns the existing
collection; on the not-found exception a new empty collection is created
only when `use_existing_vector_store` is `False`, otherwise the handle is
left as `None`.  Returns the updated store and the collection handle
(its name). -/
def initChromaClient (s : ChromaStore) (useExisting : Bool) (name : String) :
    ChromaStore × Option String :=
  match List.lookup name s with
  | some _ => (s, some name)
  | none =>
    if useExisting then (s, none)
    else (s ++ [(name, [])], some name)

/-- Which build-time steps `run_pipeline` invoked. -/
structure RunTrace where
  createEmbeddingsCalled : Bool
  buildVectorStoreCalled : Bool
deriving DecidableEq

/-- `RAGPipeline.load_data`: on a successful read store the frame into
`self.complaints_data` and return it; on failure (no file, read error)
return `pd.DataFrame()` leaving the state alone.  `loaded` is the outcome
of the external CSV read. -/
def load_data (p : RAGPipeline) (loaded : Option DataFrame) : DataFrame × RAGPipeline :=
  match loaded with
  | none => (emptyDF, p)
  | some df => (df, { p with complaints_data := some df })

/-- `RAGPipeline.run_pipeline`: load, preprocess, and — only when
`use_existing_vector_store` is `False` — create embeddings and build the
vector store, failing when the build fails.  `store` is the current
content of the ChromaDB collection; the trace records which build steps
were invoked. -/
def run_pipeline (p : RAGPipeline) (loaded : Option DataFrame)
    (store : Option (List Entry)) : Bool × RAGPipeline × Option (List Entry) × RunTrace :=
  let p2 := (preprocess_data (load_data p loaded).2).2
  if p.use_existing_vector_store then (true, p2, store, ⟨false, false⟩)
  else
    let result := build_vector_store p2.complaints_data store
      (create_embeddings p2 "combined_text")
    (result.1, p2, result.2, ⟨true, true⟩)

/-- `preprocess_data` with explicit object identity: `heap` maps object
ids to DataFrame values, `src` is `self.complaints_data`, and `fresh` is
the id allocated by `self.complaints_data.copy()`.  All mutation targets
the copy; the method finally rebinds the field to the copy's id. -/
def preprocessDataHeap (heap : List (Nat × DataFrame)) (src fresh : Nat) :
    List (Nat × DataFrame) × Nat :=
  match List.lookup src heap with
  | none => (heap, src)
  | some df =>
    if df.rows.isEmpty || df.cols.isEmpty then (heap, src)
    else ((fresh, preprocessData df) :: heap, fresh)

/-! ### Concrete fixtures for witnesses and counterexamples -/

/-- An embedding model returning a fixed one-dimensional vector. -/
def unitModel : EmbeddingModel :=
  ⟨fun _ => [1], fun l => l.map (fun _ => [1])⟩

/-- A collection handle over an empty index: every query returns the
empty response. -/
def emptyIndexCollection : Collection := ⟨fun _ _ => ⟨[], [], []⟩⟩

/-- A collection whose index reports one neighbor at cosine distance
`3/2` (a vector at an obtuse angle to the query). -/
def obtuseCollection : Collection :=
  ⟨fun _ _ => ⟨[[("company", Cell.str "X")]], ["doc"], [3/2]⟩⟩

/-- A collection returning one neighbor whose stored document is the
empty string. -/
def emptyDocCollection : Collection :=
  ⟨fun _ _ => ⟨[[("company", Cell.str "X")]], [""], [1/2]⟩⟩

/-- A tiny preprocessed frame holding one `combined_text` value. -/
def dfCT : DataFrame := ⟨["combined_text"], [Dtype.object], [[Cell.str "x"]]⟩

/-- A frame with a single numeric column and no missing values. -/
def dfNum : DataFrame := ⟨["n"], [Dtype.numeric], [[Cell.num 1], [Cell.num 2]]⟩

/-- A sample raw frame: a duplicated row and a missing value. -/
def dfSample : DataFrame :=
  ⟨["company", "product"], [Dtype.object, Dtype.object],
   [[Cell.str "A", Cell.str "B"], [Cell.str "A", Cell.str "B"], [Cell.na, Cell.str "C"]]⟩

/-- Pipeline state with no collection handle. -/
def pNoCollection : RAGPipeline := ⟨true, none, some unitModel, none⟩

/-- Pipeline state over the empty index. -/
def pEmptyIndex : RAGPipeline := ⟨true, some emptyIndexCollection, some unitModel, none⟩

/-- Pipeline state whose index reports an obtuse-angle neighbor. -/
def pObtuse : RAGPipeline := ⟨true, some obtuseCollection, some unitModel, none⟩

/-- Pipeline state retrieving only an empty document. -/
def pEmptyDoc : RAGPipeline := ⟨true, some emptyDocCollection, some unitModel, none⟩

/-- Pipeline state whose embedding model failed to load. -/
def pDisabled : RAGPipeline := ⟨true, some emptyIndexCollection, none, some dfCT⟩

/-- An already-indexed entry with the first generated id. -/
def entry0 : Entry := ⟨"complaint_0", [1], [], "t"⟩

/-- A persistent store already holding the configured collection. -/
def storeFC : ChromaStore := [("financial_complaints", [entry0])]

/-! ### Helper lemmas about the normalization stages -/

theorem mem_dedupFirst {x : List Cell} :
    ∀ (l seen : List (List Cell)), x ∈ dedupFirst seen l ↔ x ∈ l ∧ x ∉ seen := by
  intro l
  induction l with
  | nil => intro seen; simp [dedupFirst]
  | cons r rs ih =>
    intro seen
    by_cases hr : r ∈ seen
    · rw [dedupFirst, if_pos hr, ih]
      constructor
      · rintro ⟨hx, hns⟩; exact ⟨List.mem_cons_of_mem r hx, hns⟩
      · rintro ⟨hx, hns⟩
        rcases List.mem_cons.mp hx with rfl | hx2
        · exact absurd hr hns
        · exact ⟨hx2, hns⟩
    · rw [dedupFirst, if_neg hr]
      constructor
      · intro hx
        rcases List.mem_cons.mp hx with rfl | hx2
        · exact ⟨List.mem_cons_self x rs, hr⟩
        · have h2 := (ih (r :: seen)).mp hx2
          exact ⟨List.mem_cons_of_mem r h2.1,
                 fun h => h2.2 (List.mem_cons_of_mem r h)⟩
      · rintro ⟨hx, hns⟩
        rcases List.mem_cons.mp hx with rfl | hx2
        · exact List.mem_cons_self x _
        · by_cases hxr : x = r
          · exact hxr ▸ List.mem_cons_self r _
          · refine List.mem_cons_of_mem r ((ih (r :: seen)).mpr ⟨hx2, ?_⟩)
            intro h
            rcases List.mem_cons.mp h with h1 | h2
            · exact hxr h1
            · exact hns h2

theorem pairwise_dedupFirst :
    ∀ (l seen : List (List Cell)), (dedupFirst seen l).Pairwise (fun a b => a ≠ b) := by
  intro l
  induction l with
  | nil => intro seen; simp [dedupFirst]
  | cons r rs ih =>
    intro seen
    by_cases hr : r ∈ seen
    · simpa [dedupFirst, if_pos hr] using ih seen
    · simp only [dedupFirst, if_neg hr]
      refine List.Pairwise.cons ?_ (ih (r :: seen))
      intro y hy
      have := (mem_dedupFirst rs (r :: seen)).mp hy
      intro hxy
      exact this.2 (hxy ▸ List.mem_cons_self r seen)

theorem astypeCells_nil (dts : List Dtype) : astypeCells dts [] = [] := by
  cases dts <;> rfl

theorem astypeCells_cons_nil (c : Cell) (cs : List Cell) :
    astypeCells [] (c :: cs) = c :: astypeCells [] cs := rfl

theorem astypeCells_cons_cons (d : Dtype) (ds : List Dtype) (c : Cell) (cs : List Cell) :
    astypeCells (d :: ds) (c :: cs) =
      (if d = Dtype.object then Cell.str (cellToString c) else c) :: astypeCells ds cs := rfl

theorem length_astypeCells : ∀ (l : List Cell) (dts : List Dtype),
    (astypeCells dts l).length = l.length := by
  intro l
  induction l with
  | nil => intro dts; simp [astypeCells_nil]
  | cons c cs ih =>
    intro dts
    cases dts with
    | nil => simp [astypeCells_cons_nil, ih]
    | cons d ds => simp [astypeCells_cons_cons, ih]

theorem length_updateDtypesFrom (rows : List (List Cell)) :
    ∀ (ds : List Dtype) (j : Nat), (updateDtypesFrom rows j ds).length = ds.length := by
  intro ds
  induction ds with
  | nil => intro j; rfl
  | cons d ds ih => intro j; simp [updateDtypesFrom, ih]

theorem fillCell_ne_na (c : Cell) : fillCell c ≠ Cell.na := by
  cases c <;> simp [fillCell]

theorem astypeCells_ne_na : ∀ (l : List Cell) (dts : List Dtype),
    (∀ c ∈ l, c ≠ Cell.na) → ∀ c ∈ astypeCells dts l, c ≠ Cell.na := by
  intro l
  induction l with
  | nil => intro dts _ c hc; simp [astypeCells_nil] at hc
  | cons x xs ih =>
    intro dts hl c hc
    cases dts with
    | nil =>
      rw [astypeCells_cons_nil, List.mem_cons] at hc
      rcases hc with rfl | hc
      · exact hl c (List.mem_cons_self c xs)
      · exact ih [] (fun y hy => hl y (List.mem_cons_of_mem _ hy)) c hc
    | cons d ds =>
      rw [astypeCells_cons_cons, List.mem_cons] at hc
      rcases hc with rfl | hc
      · by_cases hd : d = Dtype.object
        · simp [hd]
        · simpa [hd] using hl x (List.mem_cons_self x xs)
      · exact ih ds (fun y hy => hl y (List.mem_cons_of_mem x hy)) c hc

theorem astypeCells_getD_isStr : ∀ (l : List Cell) (dts : List Dtype) (j : Nat),
    j < l.length → j < dts.length → dts.getD j Dtype.numeric = Dtype.object →
    ((astypeCells dts l).getD j Cell.na).isStr = true := by
  intro l
  induction l with
  | nil => intro dts j hj; simp at hj
  | cons x xs ih =>
    intro dts j hj hjd hobj
    cases dts with
    | nil => simp at hjd
    | cons d ds =>
      cases j with
      | zero =>
        have hd : d = Dtype.object := by simpa [List.getD] using hobj
        simp [astypeCells_cons_cons, hd, List.getD, Cell.isStr]
      | succ k =>
        have hk : k < xs.length := Nat.lt_of_succ_lt_succ hj
        have hkd : k < ds.length := Nat.lt_of_succ_lt_succ hjd
        have hobj2 : ds.getD k Dtype.numeric = Dtype.object := hobj
        simpa [astypeCells_cons_cons, List.getD] using ih ds k hk hkd hobj2

/-! ### Claim theorems -/

/-- C2: for every query whose retrieval yields no results or only
empty-string documents, `generate_answer_with_llm` returns exactly the
fixed string "No relevant context found to answer the question." and
does not invoke the text-generation model. -/
theorem C2_no_context_fallback (p : RAGPipeline) (gen : String → Except String String)
    (q : String) (tk : Option Int)
    (h : ∀ r ∈ (search_similar_complaints p q tk).1, r.document = "") :
    generate_answer_with_llm p gen q tk = (NO_CONTEXT_FALLBACK, false) := by
  have hf : ((search_similar_complaints p q tk).1.map
      (fun r => r.document)).filter (fun d => d ≠ "") = [] := by
    rw [List.filter_eq_nil_iff]
    intro d hd
    rcases List.mem_map.mp hd with ⟨r, hr, rfl⟩
    simp [h r hr]
  unfold generate_answer_with_llm
  rw [hf]

/-- C2 witness: a pipeline whose only retrieved document is the empty
string returns the fixed fallback without invoking generation. -/
theorem C2_no_context_fallback_witness :
    (∀ r ∈ (search_similar_complaints pEmptyDoc "What is X?" (some 5)).1, r.document = "") ∧
    generate_answer_with_llm pEmptyDoc (fun _ => Except.ok "answer") "What is X?" (some 5) =
      (NO_CONTEXT_FALLBACK, false) :=
  ⟨by decide,
   C2_no_context_fallback pEmptyDoc (fun _ => Except.ok "answer") "What is X?" (some 5)
     (by decide)⟩

/-- C3 (amended): when the embedding model failed to load,
`create_embeddings` returns an empty embedding array and
`search_similar_complaints` returns the empty list without computing any
query embedding; the failure is logged, not raised as a
`ModelUnavailable` error. -/
theorem C3_disabled_model_degrades (p : RAGPipeline) (q col : String) (tk : Option Int)
    (h : p.embedding_model = none) :
    create_embeddings p col = [] ∧
    (search_similar_complaints p q tk).1 = [] ∧
    (search_similar_complaints p q tk).2.embedCalled = false := by
  refine ⟨?_, ?_, ?_⟩ <;>
    cases hc : p.collection <;>
      simp [create_embeddings, search_similar_complaints, h, hc]

/-- C3 counterexample: a concrete disabled-adapter state in which both
embedding calls silently return an empty result — no `ModelUnavailable`
error exists on this path. -/
theorem C3_counterexample_silent_empty :
    create_embeddings pDisabled "combined_text" = [] ∧
    search_similar_complaints pDisabled "credit card fraud" none = ([], ⟨false, false⟩) :=
  ⟨rfl, rfl⟩

/-- C3 witness: the amended degraded behavior at a concrete disabled
state. -/
theorem C3_disabled_model_degrades_witness :
    pDisabled.embedding_model = none ∧
    (create_embeddings pDisabled "q col" = [] ∧
     (search_similar_complaints pDisabled "q" none).1 = [] ∧
     (search_similar_complaints pDisabled "q" none).2.embedCalled = false) :=
  ⟨rfl, C3_disabled_model_degrades pDisabled "q" "q col" none rfl⟩

/-- C4: for every query string, if the vector index is uninitialized (no
collection handle) or empty (the index query reports no neighbors),
`search_similar_complaints` returns the empty list; the function is
total, so no error is raised. -/
theorem C4_empty_or_uninitialized_search (p : RAGPipeline) (q : String) (tk : Option Int) :
    (p.collection = none → (search_similar_complaints p q tk).1 = []) ∧
    (∀ (coll : Collection) (m : EmbeddingModel),
      p.collection = some coll → p.embedding_model = some m →
      (coll.query (m.encode q) (tk.getD DEFAULT_TOP_K)).metadatas = [] →
      (search_similar_complaints p q tk).1 = []) := by
  constructor
  · intro h; simp [search_similar_complaints, h]
  · intro coll m hc hm hq
    simp [search_similar_complaints, hc, hm, formatResults, hq]

/-- C4 witness: the uninitialized-handle case and the freshly created
empty index both return `[]`. -/
theorem C4_empty_or_uninitialized_search_witness :
    (search_similar_complaints pNoCollection "any query" none).1 = [] ∧
    (search_similar_complaints pEmptyIndex "any query" none).1 = [] :=
  ⟨(C4_empty_or_uninitialized_search pNoCollection "any query" none).1 rfl,
   (C4_empty_or_uninitialized_search pEmptyIndex "any query" none).2
     emptyIndexCollection unitModel rfl rfl rfl⟩

/-- C5 (amended): `search_similar_complaints` performs no validation of
`top_k`: even for `top_k < 1` it computes the query embedding and issues
the index query, returning the formatted index response rather than
rejecting the request. -/
theorem C5_no_topk_validation (p : RAGPipeline) (coll : Collection) (m : EmbeddingModel)
    (q : String) (k : Int) (hc : p.collection = some coll) (hm : p.embedding_model = some m)
    (_hk : k < 1) :
    search_similar_complaints p q (some k) =
      (formatResults (coll.query (m.encode q) k), ⟨true, true⟩) := by
  simp [search_similar_complaints, hc, hm]

/-- C5 counterexample: a concrete call with `top_k = 0 < 1` is not
rejected — the query embedding is computed and the index query is
issued. -/
theorem C5_counterexample_no_rejection :
    (search_similar_complaints pEmptyIndex "q" (some 0)).2.embedCalled = true ∧
    (search_similar_complaints pEmptyIndex "q" (some 0)).2.queryCalled = true :=
  ⟨rfl, rfl⟩

/-- C5 witness: the amended no-validation behavior at `top_k = 0`. -/
theorem C5_no_topk_validation_witness :
    ((0 : Int) < 1) ∧
    search_similar_complaints pEmptyIndex "q" (some 0) =
      (formatResults (emptyIndexCollection.query (unitModel.encode "q") 0), ⟨true, true⟩) :=
  ⟨by decide, C5_no_topk_validation pEmptyIndex emptyIndexCollection unitModel "q" 0
    rfl rfl (by decide)⟩

/-- C9: `preprocess_data` never mutates the caller's source frame: under
explicit object identity, the heap entry of the source id is unchanged,
all work happening on the fresh copy, and the only field added to the
output is `combined_text`. -/
theorem C9_no_inplace_mutation (heap : List (Nat × DataFrame)) (src fresh : Nat)
    (df : DataFrame) (hsrc : List.lookup src heap = some df) (hne : fresh ≠ src) :
    List.lookup src (preprocessDataHeap heap src fresh).1 = some df ∧
    (preprocessData df).cols = df.cols ++ ["combined_text"] := by
  refine ⟨?_, rfl⟩
  unfold preprocessDataHeap
  rw [hsrc]
  by_cases h : df.rows.isEmpty || df.cols.isEmpty
  · simp [h, hsrc]
  · simp only [h, if_neg, Bool.false_eq_true, not_false_iff, if_false]
    have hb : (src == fresh) = false := by
      simp [Ne.symm hne]
    simp [List.lookup, hb, hsrc]

/-- C9 witness: concrete heap with the source frame at id 0 and the copy
at id 1. -/
theorem C9_no_inplace_mutation_witness :
    List.lookup 0 (preprocessDataHeap [(0, dfSample)] 0 1).1 = some dfSample ∧
    (preprocessData dfSample).cols = dfSample.cols ++ ["combined_text"] :=
  C9_no_inplace_mutation [(0, dfSample)] 0 1 dfSample rfl (by decide)

/-- C10: `run_pipeline` on a pipeline constructed with
`use_existing_vector_store = True` returns `True` for every load outcome
(including no data at all), never invokes `create_embeddings` or
`build_vector_store`, and leaves the vector store untouched. -/
theorem C10_existing_store_skips_build (p : RAGPipeline) (loaded : Option DataFrame)
    (store : Option (List Entry)) (h : p.use_existing_vector_store = true) :
    (run_pipeline p loaded store).1 = true ∧
    (run_pipeline p loaded store).2.2.1 = store ∧
    (run_pipeline p loaded store).2.2.2 = ⟨false, false⟩ := by
  simp [run_pipeline, h]

/-- C10 witness: the default-configured pipeline with no data and no
store still reports success and performs no build step. -/
theorem C10_existing_store_skips_build_witness :
    (run_pipeline pNoCollection none none).1 = true ∧
    (run_pipeline pNoCollection none none).2.2.1 = none ∧
    (run_pipeline pNoCollection none none).2.2.2 = ⟨false, false⟩ :=
  C10_existing_store_skips_build pNoCollection none none rfl

/-- C1 (amended): under the index contract — ascending distances, one
distance per metadata record, cosine distances in `[0, 2]` — every
result's `similarity_score` equals `1 -` the reported distance (a linear
rescoring preserving the index order), all scores lie in `[-1, 1]`, and
the results are ordered by non-increasing `similarity_score`. -/
theorem C1_linear_rescoring (p : RAGPipeline) (coll : Collection) (m : EmbeddingModel)
    (q : String) (tk : Option Int)
    (hc : p.collection = some coll) (hm : p.embedding_model = some m)
    (hsort : (coll.query (m.encode q) (tk.getD DEFAULT_TOP_K)).distances.Pairwise
      (fun a b => a ≤ b))
    (hlen : (coll.query (m.encode q) (tk.getD DEFAULT_TOP_K)).distances.length =
      (coll.query (m.encode q) (tk.getD DEFAULT_TOP_K)).metadatas.length)
    (hbound : ∀ d ∈ (coll.query (m.encode q) (tk.getD DEFAULT_TOP_K)).distances,
      0 ≤ d ∧ d ≤ 2) :
    ((search_similar_complaints p q tk).1.map (fun r => r.similarity_score) =
      (coll.query (m.encode q) (tk.getD DEFAULT_TOP_K)).distances.map (fun d => 1 - d)) ∧
    (∀ r ∈ (search_similar_complaints p q tk).1,
      -1 ≤ r.similarity_score ∧ r.similarity_score ≤ 1) ∧
    ((search_similar_complaints p q tk).1.map (fun r => r.similarity_score)).Pairwise
      (fun a b => b ≤ a) := by
  have hs : (search_similar_complaints p q tk).1 =
      formatResults (coll.query (m.encode q) (tk.getD DEFAULT_TOP_K)) := by
    simp [search_similar_complaints, hc, hm]
  set resp := coll.query (m.encode q) (tk.getD DEFAULT_TOP_K) with hresp
  have hmap : (formatResults resp).map (fun r => r.similarity_score) =
      resp.distances.map (fun d => 1 - d) := by
    apply List.ext_getElem
    · simp [formatResults, hlen]
    · intro i h1 h2
      have hi : i < resp.metadatas.length := by
        simpa [formatResults] using h1
      have hid : i < resp.distances.length := by
        rw [hlen]; exact hi
      simp only [formatResults, List.map_map, List.getElem_map, List.getElem_range,
        Function.comp]
      rw [List.getD_eq_getElem resp.distances 0 hid]
  refine ⟨by rw [hs, hmap], ?_, ?_⟩
  · intro r hr
    rw [hs] at hr
    have hscore : r.similarity_score ∈ (formatResults resp).map
        (fun r2 => r2.similarity_score) := List.mem_map_of_mem _ hr
    rw [hmap] at hscore
    rcases List.mem_map.mp hscore with ⟨d, hd, hde⟩
    rcases hbound d hd with ⟨h0, h2⟩
    constructor
    · rw [← hde]; linarith
    · rw [← hde]; linarith
  · rw [hs, hmap]
    rw [List.pairwise_map]
    exact hsort.imp (fun hab => by linarith)

/-- C1 counterexample: a legitimate cosine distance of `3/2` (an
obtuse-angle neighbor) yields `similarity_score = -1/2`, violating the
claimed bound `0 ≤ similarity_score`. -/
theorem C1_counterexample_negative_score :
    ((search_similar_complaints pObtuse "q" (some 1)).1.map
      (fun r => r.similarity_score) = [-(1/2 : ℚ)]) ∧
    ¬(∀ r ∈ (search_similar_complaints pObtuse "q" (some 1)).1,
      0 ≤ r.similarity_score) := by
  have h1 : (search_similar_complaints pObtuse "q" (some 1)).1.map
      (fun r => r.similarity_score) = [-(1/2 : ℚ)] := by
    norm_num [search_similar_complaints, pObtuse, obtuseCollection, unitModel,
      formatResults, DEFAULT_TOP_K, List.range_succ]
  refine ⟨h1, fun h => ?_⟩
  have h2 : -(1/2 : ℚ) ∈ (search_similar_complaints pObtuse "q" (some 1)).1.map
      (fun r => r.similarity_score) := by
    rw [h1]; exact List.mem_singleton.mpr rfl
  rcases List.mem_map.mp h2 with ⟨r, hr, hsc⟩
  have h3 := h r hr
  rw [hsc] at h3
  norm_num at h3

/-- C1 witness: the amended claim at the obtuse-neighbor index. -/
theorem C1_linear_rescoring_witness :
    ((search_similar_complaints pObtuse "q" (some 1)).1.map (fun r => r.similarity_score) =
      (obtuseCollection.query (unitModel.encode "q") ((some (1:Int)).getD DEFAULT_TOP_K)).distances.map
        (fun d => 1 - d)) ∧
    (∀ r ∈ (search_similar_complaints pObtuse "q" (some 1)).1,
      -1 ≤ r.similarity_score ∧ r.similarity_score ≤ 1) ∧
    ((search_similar_complaints pObtuse "q" (some 1)).1.map
      (fun r => r.similarity_score)).Pairwise (fun a b => b ≤ a) :=
  C1_linear_rescoring pObtuse obtuseCollection unitModel "q" (some 1) rfl rfl
    (by simp [obtuseCollection]) rfl (by norm_num [obtuseCollection])

/-- Lookup of a collection just appended to a store that lacked it. -/
theorem lookup_append_singleton (name : String) (l : List Entry) :
    ∀ s : ChromaStore, List.lookup name s = none →
      List.lookup name (s ++ [(name, l)]) = some l := by
  intro s
  induction s with
  | nil =>
    intro _
    simp [List.lookup]
  | cons kv s ih =>
    intro h
    cases kv with
    | mk k v =>
      by_cases hk : (name == k) = true
      · simp [List.lookup, hk] at h
      · rw [Bool.not_eq_true] at hk
        simp only [List.lookup, hk] at h ⊢
        exact ih h

/-- C7 (amended): `_initialize_chroma_client` opens the collection when
one with that name exists; when none exists it creates an empty one only
if `use_existing_vector_store` is `False`, and otherwise leaves the
handle unset. In every configuration a repeated call is idempotent,
returning the same store and the same handle. -/
theorem C7_open_or_create (s : ChromaStore) (name : String) (ue : Bool) :
    (∀ d, List.lookup name s = some d → initChromaClient s ue name = (s, some name)) ∧
    (List.lookup name s = none →
      initChromaClient s false name = (s ++ [(name, [])], some name) ∧
      initChromaClient s true name = (s, none)) ∧
    initChromaClient (initChromaClient s ue name).1 ue name = initChromaClient s ue name := by
  refine ⟨?_, ?_, ?_⟩
  · intro d hd
    simp [initChromaClient, hd]
  · intro hn
    constructor
    · simp [initChromaClient, hn]
    · simp [initChromaClient, hn]
  · cases hd : List.lookup name s with
    | some d =>
      simp [initChromaClient, hd]
    | none =>
      cases ue with
      | true => simp [initChromaClient, hd]
      | false =>
        have h2 := lookup_append_singleton name [] s hd
        simp [initChromaClient, hd, h2]

/-- C7 counterexample: with the default `use_existing_vector_store =
True`, a missing collection is not created — the handle stays `None` and
the store is unchanged. -/
theorem C7_counterexample_no_creation :
    initChromaClient [] true "financial_complaints" = ([], none) ∧
    List.lookup "financial_complaints"
      (initChromaClient [] true "financial_complaints").1 = none :=
  ⟨rfl, rfl⟩

/-- C7 witness: opening an existing collection and idempotency at a
concrete store. -/
theorem C7_open_or_create_witness :
    initChromaClient storeFC true "financial_complaints" =
      (storeFC, some "financial_complaints") ∧
    initChromaClient (initChromaClient storeFC true "financial_complaints").1 true
      "financial_complaints" = initChromaClient storeFC true "financial_complaints" :=
  ⟨(C7_open_or_create storeFC "financial_complaints" true).1 [entry0] rfl,
   (C7_open_or_create storeFC "financial_complaints" true).2.2⟩

/-- The generated id list starts with `complaint_0`. -/
theorem complaintIds_succ (n : Nat) :
    complaintIds (n + 1) =
      "complaint_0" :: (List.range n).map (fun i => "complaint_" ++ toString (i + 1)) := by
  simp only [complaintIds, List.range_succ_eq_map, List.map_cons, List.map_map]
  rfl

/-- C8: building into a collection that already holds an entry with the
first generated id makes `collection.add` raise `DuplicateId`;
`build_vector_store` surfaces the failure by returning `False` and the
collection keeps only its previous entries (at most the first of the two
conflicting entries). -/
theorem C8_duplicate_rejection (c : List Entry) (df : DataFrame) (embs : List (List ℚ))
    (hdup : "complaint_0" ∈ c.map (fun e => e.id))
    (hcol : df.cols.contains "combined_text" = true)
    (hrow : df.rows ≠ []) (hemb : embs ≠ []) :
    collectionAdd c (buildEntries (complaintIds df.rows.length) embs
      (df.rows.map (fun r2 =>
        cellToString (r2.getD (List.indexOf "combined_text" df.cols) Cell.na)))
      (df.rows.map (fun r2 => df.cols.zip r2))) = Except.error "DuplicateId" ∧
    build_vector_store (some df) (some c) embs = (false, some c) := by
  obtain ⟨r, rs, hr⟩ := List.exists_cons_of_ne_nil hrow
  obtain ⟨e, es, he⟩ := List.exists_cons_of_ne_nil hemb
  have hadd : collectionAdd c (buildEntries (complaintIds df.rows.length) embs
      (df.rows.map (fun r2 =>
        cellToString (r2.getD (List.indexOf "combined_text" df.cols) Cell.na)))
      (df.rows.map (fun r2 => df.cols.zip r2))) = Except.error "DuplicateId" := by
    rw [hr, he]
    rw [List.length_cons, complaintIds_succ, List.map_cons, List.map_cons]
    rw [buildEntries]
    have hany : ((⟨"complaint_0", e, df.cols.zip r,
        cellToString (r.getD (List.indexOf "combined_text" df.cols) Cell.na)⟩ ::
        buildEntries ((List.range rs.length).map (fun i => "complaint_" ++ toString (i + 1)))
          es (rs.map (fun r2 =>
            cellToString (r2.getD (List.indexOf "combined_text" df.cols) Cell.na)))
          (rs.map (fun r2 => df.cols.zip r2)) : List Entry).map (fun e2 => e2.id)).any
        (fun i => (c.map (fun e2 => e2.id)).contains i) = true := by
      rw [List.map_cons, List.any_cons]
      have hin : ((c.map (fun e2 => e2.id)).contains "complaint_0") = true := by
        exact List.elem_iff.mpr hdup
      rw [hin]
      rfl
    rw [collectionAdd, hany]
    rfl
  refine ⟨hadd, ?_⟩
  rw [build_vector_store]
  have hne : embs.isEmpty = false := by
    rw [he]; rfl
  rw [hne, hcol]
  simp only [Bool.not_true, Bool.false_eq_true, if_false, if_true]
  rw [hadd]

/-- C8 witness: one stored entry with id `complaint_0`, and a rebuild
over a one-row frame attempting the same id. -/
theorem C8_duplicate_rejection_witness :
    ("complaint_0" ∈ ([entry0].map (fun e => e.id))) ∧
    collectionAdd [entry0] (buildEntries (complaintIds dfCT.rows.length) [[(1 : ℚ)]]
      (dfCT.rows.map (fun r2 =>
        cellToString (r2.getD (List.indexOf "combined_text" dfCT.cols) Cell.na)))
      (dfCT.rows.map (fun r2 => dfCT.cols.zip r2))) = Except.error "DuplicateId" ∧
    build_vector_store (some dfCT) (some [entry0]) [[(1 : ℚ)]] = (false, some [entry0]) := by
  have h := C8_duplicate_rejection [entry0] dfCT [[(1 : ℚ)]]
    (by decide) (by decide) (by decide) (by decide)
  exact ⟨by decide, h.1, h.2⟩

/-- `getD` at an in-range index does not depend on the default. -/
theorem getD_default_irrel (l : List Dtype) (j : Nat) (h : j < l.length) (d1 d2 : Dtype) :
    l.getD j d1 = l.getD j d2 := by
  rw [List.getD_eq_getElem _ _ h, List.getD_eq_getElem _ _ h]

/-- C6 (amended): for every loaded, non-empty, well-formed input table,
`preprocess_data` (a) removes exact duplicate rows, keeping first
occurrences, (b) leaves no missing value in its output, (c) leaves every
field of an object-dtype column as text (numeric columns without missing
values keep their numeric values), and (d) appends a `combined_text`
column equal to the dedicated narrative field if that column is present,
otherwise the space-joined concatenation of the company/product/issue
fields that are present, otherwise the stringified first column. -/
theorem C6_preprocess_normalization (df : DataFrame)
    (_hrow : df.rows ≠ []) (_hcol : df.cols ≠ [])
    (hwf : ∀ r ∈ df.rows, r.length = df.cols.length)
    (hdt : df.dtypes.length = df.cols.length) :
    ((dedupFirst [] df.rows).Pairwise (fun a b => a ≠ b) ∧
      ∀ r ∈ df.rows, r ∈ dedupFirst [] df.rows) ∧
    (∀ r ∈ (preprocessData df).rows, ∀ c ∈ r, c ≠ Cell.na) ∧
    (∀ r ∈ (preprocessData df).rows, ∀ j : Nat, j < r.length →
      (preprocessData df).dtypes.getD j Dtype.numeric = Dtype.object →
      (r.getD j Cell.na).isStr = true) ∧
    ((preprocessData df).cols = df.cols ++ ["combined_text"] ∧
      (preprocessData df).rows =
        (normalizedRows df).map (fun r => r ++ [combinedTextCell df.cols r]) ∧
      (∀ r2 : List Cell, df.cols.contains "consumer_complaint_narrative" = true →
        combinedTextCell df.cols r2 =
          r2.getD (List.indexOf "consumer_complaint_narrative" df.cols) Cell.na) ∧
      (∀ r2 : List Cell, df.cols.contains "consumer_complaint_narrative" = false →
        availableTextFields df.cols ≠ [] →
        combinedTextCell df.cols r2 = Cell.str (joinAvailable df.cols r2)) ∧
      (∀ r2 : List Cell, df.cols.contains "consumer_complaint_narrative" = false →
        availableTextFields df.cols = [] →
        combinedTextCell df.cols r2 = Cell.str (cellToString (r2.getD 0 Cell.na)))) := by
  have hmem : ∀ r1 ∈ dedupFirst [] df.rows, r1 ∈ df.rows := fun r1 h =>
    ((mem_dedupFirst df.rows []).mp h).1
  have hfl : (filledDtypes df).length = df.cols.length := by
    rw [filledDtypes, length_updateDtypesFrom, hdt]
  have hnormlen : ∀ r3 ∈ normalizedRows df, r3.length = df.cols.length := by
    intro r3 h3
    rcases List.mem_map.mp h3 with ⟨r1, h1, rfl⟩
    rw [length_astypeCells, List.length_map]
    exact hwf r1 (hmem r1 h1)
  have hnona : ∀ r3 ∈ normalizedRows df, ∀ c ∈ r3, c ≠ Cell.na := by
    intro r3 h3
    rcases List.mem_map.mp h3 with ⟨r1, _, rfl⟩
    apply astypeCells_ne_na
    intro c hc
    rcases List.mem_map.mp hc with ⟨c0, _, rfl⟩
    exact fillCell_ne_na c0
  have hisstr : ∀ r3 ∈ normalizedRows df, ∀ j : Nat, j < r3.length →
      (filledDtypes df).getD j Dtype.numeric = Dtype.object →
      (r3.getD j Cell.na).isStr = true := by
    intro r3 h3 j hj hobj
    rcases List.mem_map.mp h3 with ⟨r1, h1, rfl⟩
    rw [length_astypeCells, List.length_map] at hj
    apply astypeCells_getD_isStr
    · rw [List.length_map]; exact hj
    · rw [hfl, ← hwf r1 (hmem r1 h1)]; exact hj
    · exact hobj
  have hctcell : ∀ r3 ∈ normalizedRows df,
      combinedTextCell df.cols r3 ≠ Cell.na ∧
      (combinedDtype df.cols (filledDtypes df) = Dtype.object →
        (combinedTextCell df.cols r3).isStr = true) := by
    intro r3 h3
    by_cases hn : df.cols.contains "consumer_complaint_narrative" = true
    · have hmemn : "consumer_complaint_narrative" ∈ df.cols := by
        simpa [List.contains] using List.elem_iff.mp hn
      have hidx : List.indexOf "consumer_complaint_narrative" df.cols < df.cols.length :=
        List.indexOf_lt_length.mpr hmemn
      have hidx3 : List.indexOf "consumer_complaint_narrative" df.cols < r3.length := by
        rw [hnormlen r3 h3]; exact hidx
      constructor
      · rw [combinedTextCell, if_pos hn]
        rw [List.getD_eq_getElem _ _ hidx3]
        exact hnona r3 h3 _ (List.getElem_mem hidx3)
      · intro hobj
        rw [combinedTextCell, if_pos hn]
        apply hisstr r3 h3 _ hidx3
        rw [combinedDtype, if_pos hn] at hobj
        rw [getD_default_irrel _ _ (by rw [hfl]; exact hidx) _ Dtype.object]
        exact hobj
    · by_cases ha : availableTextFields df.cols = []
      · constructor
        · rw [combinedTextCell, if_neg hn, if_neg (by simp [ha])]
          simp
        · intro _
          rw [combinedTextCell, if_neg hn, if_neg (by simp [ha])]
          rfl
      · constructor
        · rw [combinedTextCell, if_neg hn, if_pos ha]
          simp
        · intro _
          rw [combinedTextCell, if_neg hn, if_pos ha]
          rfl
  refine ⟨⟨pairwise_dedupFirst df.rows [],
    fun r hr => (mem_dedupFirst df.rows []).mpr ⟨hr, List.not_mem_nil r⟩⟩, ?_, ?_, ?_⟩
  · intro r hr c hc
    rcases List.mem_map.mp hr with ⟨r3, h3, rfl⟩
    rcases List.mem_append.mp hc with hc3 | hct
    · exact hnona r3 h3 c hc3
    · rw [List.mem_singleton] at hct
      rw [hct]
      exact (hctcell r3 h3).1
  · intro r hr j hjlen hobj
    rcases List.mem_map.mp hr with ⟨r3, h3, rfl⟩
    rw [List.length_append, List.length_singleton] at hjlen
    rcases Nat.lt_or_ge j r3.length with hlt | hge
    · rw [List.getD_append _ _ _ _ hlt]
      have hjf : j < (filledDtypes df).length := by
        rw [hfl, ← hnormlen r3 h3]; exact hlt
      have hobj2 : (filledDtypes df).getD j Dtype.numeric = Dtype.object := by
        have : (preprocessData df).dtypes =
            filledDtypes df ++ [combinedDtype df.cols (filledDtypes df)] := rfl
        rw [this, List.getD_append _ _ _ _ hjf] at hobj
        exact hobj
      exact hisstr r3 h3 j hlt hobj2
    · have hj : j = r3.length := Nat.le_antisymm (Nat.lt_succ_iff.mp hjlen) hge
      subst hj
      rw [List.getD_append_right _ _ _ _ (Nat.le_refl _), Nat.sub_self]
      have hlen3 : r3.length = (filledDtypes df).length := by
        rw [hfl]; exact hnormlen r3 h3
      have hobj2 : combinedDtype df.cols (filledDtypes df) = Dtype.object := by
        have heq : (preprocessData df).dtypes =
            filledDtypes df ++ [combinedDtype df.cols (filledDtypes df)] := rfl
        rw [heq, List.getD_append_right _ _ _ _ (Nat.le_of_eq hlen3.symm), hlen3,
          Nat.sub_self] at hobj
        exact hobj
      exact (hctcell r3 h3).2 hobj2
  · refine ⟨rfl, rfl, ?_, ?_, ?_⟩
    · intro r2 h
      rw [combinedTextCell, if_pos h]
    · intro r2 h h2
      have hnot : ¬ (df.cols.contains "consumer_complaint_narrative" = true) := by
        rw [h]; exact Bool.false_ne_true
      rw [combinedTextCell, if_neg hnot, if_pos h2]
    · intro r2 h h2
      have hnot : ¬ (df.cols.contains "consumer_complaint_narrative" = true) := by
        rw [h]; exact Bool.false_ne_true
      rw [combinedTextCell, if_neg hnot, if_neg (fun hne => hne h2)]

/-- C6 counterexample: a numeric column with no missing values is not
coerced to text — the first field of the first preprocessed row of
`dfNum` is still the number `1`, refuting "every field is coerced to
text". -/
theorem C6_counterexample_numeric_field :
    ((preprocessData dfNum).rows.getD 0 []).getD 0 Cell.na = Cell.num 1 ∧
    (Cell.num 1).isStr = false :=
  ⟨rfl, rfl⟩

/-- C6 witness: the amended normalization contract at a concrete frame
with a duplicate row and a missing value. -/
theorem C6_preprocess_normalization_witness :
    ((dedupFirst [] dfSample.rows).Pairwise (fun a b => a ≠ b) ∧
      ∀ r ∈ dfSample.rows, r ∈ dedupFirst [] dfSample.rows) ∧
    (∀ r ∈ (preprocessData dfSample).rows, ∀ c ∈ r, c ≠ Cell.na) ∧
    (∀ r ∈ (preprocessData dfSample).rows, ∀ j : Nat, j < r.length →
      (preprocessData dfSample).dtypes.getD j Dtype.numeric = Dtype.object →
      (r.getD j Cell.na).isStr = true) ∧
    ((preprocessData dfSample).cols = dfSample.cols ++ ["combined_text"] ∧
      (preprocessData dfSample).rows =
        (normalizedRows dfSample).map (fun r => r ++ [combinedTextCell dfSample.cols r]) ∧
      (∀ r2 : List Cell, dfSample.cols.contains "consumer_complaint_narrative" = true →
        combinedTextCell dfSample.cols r2 =
          r2.getD (List.indexOf "consumer_complaint_narrative" dfSample.cols) Cell.na) ∧
      (∀ r2 : List Cell, dfSample.cols.contains "consumer_complaint_narrative" = false →
        availableTextFields dfSample.cols ≠ [] →
        combinedTextCell dfSample.cols r2 = Cell.str (joinAvailable dfSample.cols r2)) ∧
      (∀ r2 : List Cell, dfSample.cols.contains "consumer_complaint_narrative" = false →
        availableTextFields dfSample.cols = [] →
        combinedTextCell dfSample.cols r2 =
          Cell.str (cellToString (r2.getD 0 Cell.na)))) :=
  C6_preprocess_normalization dfSample (by decide) (by decide) (by decide) (by decide)

end TrustVoice
